import Mathlib

/-!
Shallow embedding of the PyMarket plugin engine.

The definitions below are translated from the repository sources:
  plugin_manager.py  (Plugin, PluginManager: load, discover, download, run)
  main_app.py        (ParameterDialog.get_parameters_as_list,
                      PluginMarketWindow._start_worker_task)

Python strings become Lean String; Python string methods that the source
uses (strip, lower, startswith, lstrip) are embedded as list-of-character
functions with Python semantics.  The filesystem is a predicate on paths.
Transient in-place status updates that are overwritten before an operation
returns (for example the "Downloading..." status) are elided; each
operation is embedded as a function from its observable inputs to its
observable outputs.
-/

namespace PyMarket

/-- Python str.strip with no argument: drop leading and trailing whitespace. -/
def pyStrip (s : String) : String :=
  ⟨((s.data.dropWhile Char.isWhitespace).reverse.dropWhile Char.isWhitespace).reverse⟩

/-- Python str.lower. -/
def pyLower (s : String) : String :=
  ⟨s.data.map Char.toLower⟩

/-- Python s.startswith with a dash, used on argument names. -/
def pyStartsWithDash (s : String) : Bool :=
  match s.data with
  | [] => false
  | c :: _ => c == '-'

/-- Python s.lstrip with a dash argument: drop every leading dash. -/
def pyLstripDashes (s : String) : String :=
  ⟨s.data.dropWhile (· == '-')⟩

/-- Python len on a string. -/
def pyLen (s : String) : Nat := s.data.length

/-- The filesystem as seen through os.path.exists. -/
def Fs : Type := String → Bool

/-- os.path.join for the forms the source uses (directory, file name). -/
def pathJoin (d f : String) : String := d ++ ("/") ++ f

/-- Python truthiness of an optional path combined with os.path.exists, as in
the source condition of the form: plugin.local_path and os.path.exists(plugin.local_path). -/
def pathLive (lp : Option String) (fs : Fs) : Bool :=
  match lp with
  | some s => (s != ("")) && fs s
  | none => false

/-! ### Argument schema and marshalling (main_app.py, ParameterDialog) -/

/-- One entry of expected_args as read by get_parameters_as_list:
name (empty string models a missing or falsy name), type string
(the source default is str), and the required flag. -/
structure ArgDef where
  name : String
  type : String
  required : Bool
deriving DecidableEq, Repr

/-- The input widget that holds the user-supplied value for one argument:
a QLineEdit (str and file args), a QSpinBox (int args), or no widget found. -/
inductive Widget where
  | lineEdit (text : String)
  | spinBox (value : Int)
  | absent
deriving DecidableEq, Repr

/-- The value string read from a widget: QLineEdit.text, str(QSpinBox.value),
or None when no widget matched. -/
def widgetValueStr : Widget → Option String
  | Widget.lineEdit t => some t
  | Widget.spinBox v => some (toString v)
  | Widget.absent => none

/-- The tokens one argument contributes to the command list, following the
branch structure of get_parameters_as_list after the required check:
an empty name is skipped; a dash-prefixed name is emitted verbatim with a
value token unless the argument is a boolean flag; a boolean flag without a
dash prefix emits nothing (the source branch is a placeholder that only
passes); otherwise the name is normalized to a long or short option followed
by the value token, and a None value contributes nothing. -/
def marshalTokens (argName : String) (isBool : Bool) (valueStr : Option String) : List String :=
  if argName == ("") then []
  else if pyStartsWithDash argName then
    argName :: (if isBool then [] else [valueStr.getD ("")])
  else if isBool then []
  else
    match valueStr with
    | none => []
    | some v =>
      let optionName := pyLstripDashes argName
      let flag :=
        if pyStartsWithDash optionName = false ∧ 1 < pyLen optionName then
          ("--") ++ optionName
        else if pyStartsWithDash optionName = false ∧ pyLen optionName = 1 then
          ("-") ++ optionName
        else argName
      [flag, v]

/-- ParameterDialog.get_parameters_as_list over the declared argument order,
with the widget that backs each argument.  Returns none when a required
non-boolean argument has a missing or blank value (the source shows a
warning box and returns None). -/
def get_parameters_as_list : List (ArgDef × Widget) → Option (List String)
  | [] => some []
  | (a, w) :: rest =>
    let isBool := pyLower a.type == ("bool_flag")
    let valueStr : Option String := if isBool then none else widgetValueStr w
    let missingValue : Bool :=
      match valueStr with
      | none => true
      | some s => pyStrip s == ("")
    if !isBool && a.required && missingValue then none
    else
      match get_parameters_as_list rest with
      | none => none
      | some tl => some (marshalTokens a.name isBool valueStr ++ tl)

/-! ### Plugin entity and the persisted store (plugin_manager.py) -/

/-- The Plugin class: metadata fields plus local download state. -/
structure Plugin where
  id : String
  name : String
  description : String
  version : String
  author : String
  script_type : String
  download_url : String
  script_filename : String
  expected_args : List ArgDef
  local_path : Option String
  is_downloaded : Bool
  status_message : String
deriving DecidableEq, Repr

/-- One record of local_plugins.json as read by _load_local_plugin_db:
the metadata fields plus the persisted local_path and is_downloaded values.
script_filename is optional; from_dict falls back to id.script_type. -/
structure StoredRecord where
  id : String
  name : String
  description : String
  version : String
  author : String
  script_type : String
  download_url : String
  script_filename : Option String
  expected_args : List ArgDef
  local_path : Option String
  is_downloaded : Bool
deriving DecidableEq, Repr

/-- Plugin.from_dict: build a Plugin from stored metadata; download state
starts cleared and the status starts as Available. -/
def Plugin.from_dict (d : StoredRecord) : Plugin :=
  { id := d.id, name := d.name, description := d.description, version := d.version,
    author := d.author, script_type := d.script_type, download_url := d.download_url,
    script_filename := d.script_filename.getD (d.id ++ (".") ++ d.script_type),
    expected_args := d.expected_args,
    local_path := none, is_downloaded := false, status_message := ("Available") }

/-- The per-record body of _load_local_plugin_db: restore local_path and
is_downloaded from the record, then either keep the Downloaded status when
the recorded file is live, or demote the entry. -/
def loadEntry (d : StoredRecord) (fs : Fs) : Plugin :=
  if d.is_downloaded && pathLive d.local_path fs then
    { Plugin.from_dict d with
        local_path := d.local_path, is_downloaded := d.is_downloaded,
        status_message := ("Downloaded") }
  else
    { Plugin.from_dict d with
        local_path := none, is_downloaded := false,
        status_message := ("Available (file missing or metadata changed)") }

/-- _load_local_plugin_db over the whole store document. -/
def load_local_plugin_db (ds : List StoredRecord) (fs : Fs) : List Plugin :=
  ds.map (fun d => loadEntry d fs)

/-! ### Reconciliation (plugin_manager.py, discover_plugins) -/

/-- One remote metadata record from the cloud connector. -/
structure RemoteMeta where
  id : String
  name : String
  description : String
  version : String
  author : String
  script_type : String
  download_url : String
  script_filename : Option String
  expected_args : List ArgDef
deriving DecidableEq, Repr

/-- plugin_data.get of script_filename with the id.script_type fallback. -/
def newScriptFilename (r : RemoteMeta) : String :=
  r.script_filename.getD (r.id ++ (".") ++ r.script_type)

/-- The descriptive-field overwrite at the top of the known-id branch of
discover_plugins. -/
def applyRemoteFields (p : Plugin) (r : RemoteMeta) : Plugin :=
  { p with name := r.name, description := r.description, version := r.version,
           author := r.author, script_type := r.script_type,
           download_url := r.download_url, expected_args := r.expected_args }

/-- The filename-change demotion of discover_plugins: a downloaded plugin
whose stored script_filename differs from the new one is demoted. -/
def demoteFilenameChanged (p : Plugin) (newFn : String) : Plugin :=
  if p.script_filename != newFn && p.is_downloaded then
    { p with is_downloaded := false, local_path := none,
             status_message := ("Available (filename changed)") }
  else p

/-- The existence re-check of discover_plugins: a plugin still marked
downloaded whose recorded file is not live is demoted. -/
def verifyDownloaded (p : Plugin) (fs : Fs) : Plugin :=
  if p.is_downloaded then
    if pathLive p.local_path fs then p
    else { p with is_downloaded := false, local_path := none,
                  status_message := ("Available (file missing)") }
  else p

/-- The known-id branch of discover_plugins for one remote record:
overwrite descriptive fields, demote on a filename change, adopt the new
filename, then re-verify the downloaded file. -/
def reconcileEntry (p : Plugin) (r : RemoteMeta) (fs : Fs) : Plugin :=
  verifyDownloaded
    ({ demoteFilenameChanged (applyRemoteFields p r) (newScriptFilename r) with
        script_filename := newScriptFilename r }) fs

/-! ### Download (plugin_manager.py, download_plugin) -/

/-- The observable outcome of download_plugin: the returned success flag and
message, the mutated plugin, the filesystem after the call, and whether the
cloud connector download operation was invoked. -/
structure DownloadResult where
  success : Bool
  message : String
  plugin : Plugin
  fs : Fs
  materializeCalled : Bool

/-- download_plugin for a plugin that exists in the table.  materializeOk is
the result the cloud connector would return if invoked; removeOk tells
whether the best-effort os.remove of a partial file would succeed.  The fast
path returns Already downloaded without touching the connector; a successful
transfer records the canonical path; a failed transfer demotes the plugin,
best-effort deletes the partial file, and still returns normally. -/
def download_plugin (localPluginsDir : String) (p : Plugin) (fs : Fs)
    (materializeOk : Bool) (removeOk : Bool) : DownloadResult :=
  let expected := pathJoin localPluginsDir p.script_filename
  if p.is_downloaded && (p.local_path == some expected) && fs expected then
    { success := true, message := ("Already downloaded"),
      plugin := { p with status_message := ("Downloaded") },
      fs := fs, materializeCalled := false }
  else if materializeOk then
    { success := true, message := ("Downloaded"),
      plugin := { p with local_path := some expected, is_downloaded := true,
                         status_message := ("Downloaded") },
      fs := fun q => if q == expected then true else fs q,
      materializeCalled := true }
  else
    { success := false, message := ("Download failed"),
      plugin := { p with local_path := none, is_downloaded := false,
                         status_message := ("Download failed") },
      fs := if fs expected && removeOk then (fun q => if q == expected then false else fs q) else fs,
      materializeCalled := true }

/-! ### Process execution (plugin_manager.py, run_plugin) -/

/-- The channel a child-process output line arrived on. -/
inductive Channel where
  | stdout
  | stderr
deriving DecidableEq, BEq, Repr

/-- The order in which run_plugin forwards child output lines to the
callback, as a function of the true arrival order: the source first drains
process.stdout to end of stream and only then reads process.stderr, so every
stdout line is forwarded before any stderr line. -/
def forwardedEvents (arrivals : List (Channel × String)) : List (Channel × String) :=
  arrivals.filter (fun e => e.1 == Channel.stdout) ++
    arrivals.filter (fun e => e.1 == Channel.stderr)

/-- The stdout and stderr text run_plugin accumulates: the concatenation of
the lines read by the two drain loops when a callback is present, and empty
strings when no callback was supplied (the loops are inside the callback
branch and nothing is read). -/
def capturedStreams (hasCallback : Bool) (arrivals : List (Channel × String)) :
    String × String :=
  if hasCallback then
    (String.join ((arrivals.filter (fun e => e.1 == Channel.stdout)).map Prod.snd),
     String.join ((arrivals.filter (fun e => e.1 == Channel.stderr)).map Prod.snd))
  else (("") , (""))

/-- The exit-code classification at the end of run_plugin: code 0 returns a
success message; a non-zero code builds a failure message from the stripped
stderr text, else the stripped stdout text, else a generic note, and the
final message is stripped.  The components are the returned success flag,
the plugin status message, and the returned message. -/
def classifyRun (returnCode : Int) (stdoutStr stderrStr : String) :
    Bool × String × String :=
  if returnCode = 0 then
    (true, ("Run successful"),
      ("Plugin executed successfully (exit code ") ++ toString returnCode ++ (")."))
  else
    (false, ("Run failed (code ") ++ toString returnCode ++ (")"),
      pyStrip (("Plugin execution failed with code ") ++ toString returnCode ++ (".\n") ++
        (if pyStrip stderrStr ≠ ("") then ("Error Output:\n") ++ pyStrip stderrStr
         else if pyStrip stdoutStr ≠ ("") then ("Output (may contain error):\n") ++ pyStrip stdoutStr
         else ("No explicit error output captured on stderr/stdout."))))

/-- run_plugin from the point the child has produced its output and exited:
capture according to the callback mode, then classify the exit code. -/
def run_plugin_outcome (hasCallback : Bool) (arrivals : List (Channel × String))
    (returnCode : Int) : Bool × String × String :=
  classifyRun returnCode (capturedStreams hasCallback arrivals).1
    (capturedStreams hasCallback arrivals).2

/-! ### Worker-task gating (main_app.py, _start_worker_task) -/

/-- The window state _start_worker_task consults: whether an active worker
thread is running, and how many worker threads have been started.  All
download and run operations of the application are started through
_start_worker_task on the GUI event thread, which serializes its
invocations. -/
structure UiState where
  activeWorkerRunning : Bool
  startedTasks : Nat
deriving DecidableEq, Repr

/-- _start_worker_task: when a worker thread is already running, show the
Busy message box and return None without starting anything; otherwise start
a new worker thread and hand back the worker object. -/
def start_worker_task (s : UiState) : Option Unit × UiState :=
  if s.activeWorkerRunning then (none, s)
  else (some (), { s with activeWorkerRunning := true, startedTasks := s.startedTasks + 1 })

/-! ### Theorems -/

/-- C1: the claim says run_plugin forwards lines from the two channels in
their true temporal arrival order and does not fully drain one channel
before reading the other.  The source drains stdout completely before
reading stderr: on a child that writes a stderr line before a stdout line,
the forwarded order swaps the two lines and differs from the arrival
order. -/
theorem run_forwarding_not_temporal :
    forwardedEvents [(Channel.stderr, ("e\n")), (Channel.stdout, ("o\n"))] =
      [(Channel.stdout, ("o\n")), (Channel.stderr, ("e\n"))] ∧
    forwardedEvents [(Channel.stderr, ("e\n")), (Channel.stdout, ("o\n"))] ≠
      [(Channel.stderr, ("e\n")), (Channel.stdout, ("o\n"))] := by
  constructor <;> decide

/-- C2: the claim says a boolean-flag argument named v with a supplied true
value marshals to the single token --v.  The boolean-flag branch of
get_parameters_as_list is an unimplemented placeholder: regardless of the
value held by the widget, a boolean flag whose name has no leading dash
contributes no token at all. -/
theorem bool_flag_true_emits_nothing :
    get_parameters_as_list
        [({ name := ("v"), type := ("bool_flag"), required := false },
          Widget.lineEdit ("true"))] = some [] ∧
    get_parameters_as_list
        [({ name := ("v"), type := ("bool_flag"), required := false },
          Widget.lineEdit ("true"))] ≠ some [("--v")] := by
  constructor <;> decide

/-- C3: the claim says an optional non-boolean argument with no supplied
value and no default contributes no tokens.  A blank QLineEdit yields the
empty string, which is not None, so the source emits the flag token followed
by an empty value token. -/
theorem optional_blank_arg_emits_tokens :
    get_parameters_as_list
        [({ name := ("opt"), type := ("str"), required := false },
          Widget.lineEdit (""))] = some [("--opt"), ("")] ∧
    get_parameters_as_list
        [({ name := ("opt"), type := ("str"), required := false },
          Widget.lineEdit (""))] ≠ some [] := by
  constructor <;> decide

/-- Any plugin that loadEntry returns as downloaded carries a live path. -/
theorem loadEntry_downloaded (d : StoredRecord) (fs : Fs)
    (h : (loadEntry d fs).is_downloaded = true) :
    ∃ lp, (loadEntry d fs).local_path = some lp ∧ fs lp = true := by
  cases hb : (d.is_downloaded && pathLive d.local_path fs) with
  | false => simp [loadEntry, hb] at h
  | true =>
    rw [Bool.and_eq_true] at hb
    obtain ⟨hd, hp⟩ := hb
    cases hlp : d.local_path with
    | none => rw [hlp] at hp; simp [pathLive] at hp
    | some s =>
      rw [hlp] at hp
      simp only [pathLive, Bool.and_eq_true, bne_iff_ne, ne_eq] at hp
      refine ⟨s, ?_, hp.2⟩
      simp [loadEntry, hlp, hd, pathLive, hp.1, hp.2]

/-- C4: loading the persisted store self-heals the download invariant: a
stored entry marked downloaded whose recorded path is unset or whose file
does not exist is returned demoted (not downloaded, no path, the
file-missing status string), and every plugin returned by the load has a
live file whenever it is marked downloaded. -/
theorem load_self_heals (d : StoredRecord) (fs : Fs)
    (_h1 : d.is_downloaded = true)
    (h2 : ∀ lp, d.local_path = some lp → fs lp = false) :
    (loadEntry d fs).is_downloaded = false ∧
    (loadEntry d fs).local_path = none ∧
    (loadEntry d fs).status_message = ("Available (file missing or metadata changed)") ∧
    ∀ (ds : List StoredRecord) (gs : Fs), ∀ q ∈ load_local_plugin_db ds gs,
      q.is_downloaded = true → ∃ lp, q.local_path = some lp ∧ gs lp = true := by
  have hc : (d.is_downloaded && pathLive d.local_path fs) = false := by
    cases hlp : d.local_path with
    | none => simp [pathLive]
    | some s => simp [pathLive, h2 s hlp]
  refine ⟨?_, ?_, ?_, ?_⟩
  · simp [loadEntry, hc]
  · simp [loadEntry, hc]
  · simp [loadEntry, hc]
  · intro ds gs q hq hdl
    obtain ⟨d2, hd2, rfl⟩ := List.mem_map.mp hq
    exact loadEntry_downloaded d2 gs hdl

/-- C4 witness: a stored entry marked downloaded with a recorded path on an
empty filesystem loads demoted. -/
theorem load_self_heals_witness :
    (loadEntry
        { id := ("p1"), name := ("P1"), description := ("d"), version := ("1.0"),
          author := ("a"), script_type := ("py"), download_url := ("u"),
          script_filename := some ("p1.py"), expected_args := [],
          local_path := some ("plugins/p1.py"), is_downloaded := true }
        (fun _ => false)).is_downloaded = false ∧
    (loadEntry
        { id := ("p1"), name := ("P1"), description := ("d"), version := ("1.0"),
          author := ("a"), script_type := ("py"), download_url := ("u"),
          script_filename := some ("p1.py"), expected_args := [],
          local_path := some ("plugins/p1.py"), is_downloaded := true }
        (fun _ => false)).local_path = none ∧
    (loadEntry
        { id := ("p1"), name := ("P1"), description := ("d"), version := ("1.0"),
          author := ("a"), script_type := ("py"), download_url := ("u"),
          script_filename := some ("p1.py"), expected_args := [],
          local_path := some ("plugins/p1.py"), is_downloaded := true }
        (fun _ => false)).status_message = ("Available (file missing or metadata changed)") := by
  have h := load_self_heals
      { id := ("p1"), name := ("P1"), description := ("d"), version := ("1.0"),
        author := ("a"), script_type := ("py"), download_url := ("u"),
        script_filename := some ("p1.py"), expected_args := [],
        local_path := some ("plugins/p1.py"), is_downloaded := true }
      (fun _ => false) rfl (fun _ _ => rfl)
  exact ⟨h.1, h.2.1, h.2.2.1⟩

/-- C5: reconciliation of a remote record against a locally known,
currently downloaded plugin: a changed script_filename demotes the plugin
to not downloaded with no path and the filename-changed status; an
unchanged script_filename with a live downloaded file leaves the plugin
downloaded. -/
theorem reconcile_script_filename (p : Plugin) (r : RemoteMeta) (fs : Fs)
    (hdl : p.is_downloaded = true) :
    (newScriptFilename r ≠ p.script_filename →
      (reconcileEntry p r fs).is_downloaded = false ∧
      (reconcileEntry p r fs).local_path = none ∧
      (reconcileEntry p r fs).status_message = ("Available (filename changed)")) ∧
    (newScriptFilename r = p.script_filename → pathLive p.local_path fs = true →
      (reconcileEntry p r fs).is_downloaded = true) := by
  constructor
  · intro hne
    have hbne : (p.script_filename != newScriptFilename r) = true :=
      bne_iff_ne.mpr (fun hx => hne hx.symm)
    simp [reconcileEntry, demoteFilenameChanged, applyRemoteFields, verifyDownloaded,
      hbne, hdl]
  · intro heq hlive
    have hbne : (p.script_filename != newScriptFilename r) = false := by
      simp [heq]
    simp [reconcileEntry, demoteFilenameChanged, applyRemoteFields, verifyDownloaded,
      hbne, hdl, hlive]

/-- C5 witness: a downloaded plugin whose remote record renames the script
file is demoted with the filename-changed status. -/
theorem reconcile_script_filename_witness :
    (reconcileEntry
        { id := ("p1"), name := ("P"), description := ("d"), version := ("1"),
          author := ("a"), script_type := ("py"), download_url := ("u"),
          script_filename := ("old.py"), expected_args := [],
          local_path := some ("plugins/old.py"), is_downloaded := true,
          status_message := ("Downloaded") }
        { id := ("p1"), name := ("P"), description := ("d"), version := ("2"),
          author := ("a"), script_type := ("py"), download_url := ("u"),
          script_filename := some ("new.py"), expected_args := [] }
        (fun _ => true)).is_downloaded = false ∧
    (reconcileEntry
        { id := ("p1"), name := ("P"), description := ("d"), version := ("1"),
          author := ("a"), script_type := ("py"), download_url := ("u"),
          script_filename := ("old.py"), expected_args := [],
          local_path := some ("plugins/old.py"), is_downloaded := true,
          status_message := ("Downloaded") }
        { id := ("p1"), name := ("P"), description := ("d"), version := ("2"),
          author := ("a"), script_type := ("py"), download_url := ("u"),
          script_filename := some ("new.py"), expected_args := [] }
        (fun _ => true)).status_message = ("Available (filename changed)") := by
  have h := reconcile_script_filename
      { id := ("p1"), name := ("P"), description := ("d"), version := ("1"),
        author := ("a"), script_type := ("py"), download_url := ("u"),
        script_filename := ("old.py"), expected_args := [],
        local_path := some ("plugins/old.py"), is_downloaded := true,
        status_message := ("Downloaded") }
      { id := ("p1"), name := ("P"), description := ("d"), version := ("2"),
        author := ("a"), script_type := ("py"), download_url := ("u"),
        script_filename := some ("new.py"), expected_args := [] }
      (fun _ => true) rfl
  exact ⟨(h.1 (by decide)).1, (h.1 (by decide)).2.2⟩

/-- C6: download is idempotent on an already-downloaded plugin whose
recorded path is the canonical target and whose file exists: the call takes
the fast path, succeeds, and does not invoke the connector download
operation, and a second call on the resulting state does the same. -/
theorem download_idempotent (dir : String) (p : Plugin) (fs : Fs)
    (m1 r1 m2 r2 : Bool)
    (h1 : p.is_downloaded = true)
    (h2 : p.local_path = some (pathJoin dir p.script_filename))
    (h3 : fs (pathJoin dir p.script_filename) = true) :
    (download_plugin dir p fs m1 r1).success = true ∧
    (download_plugin dir p fs m1 r1).materializeCalled = false ∧
    (download_plugin dir (download_plugin dir p fs m1 r1).plugin
        (download_plugin dir p fs m1 r1).fs m2 r2).success = true ∧
    (download_plugin dir (download_plugin dir p fs m1 r1).plugin
        (download_plugin dir p fs m1 r1).fs m2 r2).materializeCalled = false := by
  refine ⟨?_, ?_, ?_, ?_⟩ <;> simp [download_plugin, h1, h2, h3]

/-- C6 witness: a concrete downloaded plugin with the canonical path on a
filesystem where the file exists. -/
theorem download_idempotent_witness :
    (download_plugin ("plugins")
        { id := ("p1"), name := ("P"), description := ("d"), version := ("1"),
          author := ("a"), script_type := ("py"), download_url := ("u"),
          script_filename := ("a.py"), expected_args := [],
          local_path := some ("plugins/a.py"), is_downloaded := true,
          status_message := ("Downloaded") }
        (fun _ => true) false false).success = true ∧
    (download_plugin ("plugins")
        { id := ("p1"), name := ("P"), description := ("d"), version := ("1"),
          author := ("a"), script_type := ("py"), download_url := ("u"),
          script_filename := ("a.py"), expected_args := [],
          local_path := some ("plugins/a.py"), is_downloaded := true,
          status_message := ("Downloaded") }
        (fun _ => true) false false).materializeCalled = false := by
  have h := download_idempotent ("plugins")
      { id := ("p1"), name := ("P"), description := ("d"), version := ("1"),
        author := ("a"), script_type := ("py"), download_url := ("u"),
        script_filename := ("a.py"), expected_args := [],
        local_path := some ("plugins/a.py"), is_downloaded := true,
        status_message := ("Downloaded") }
      (fun _ => true) false false false false rfl (by decide) rfl
  exact ⟨h.1, h.2.1⟩

/-- C7: classification of a completed run: exit code 0 returns success with
the run-successful status; a non-zero code returns failure with the
run-failed status carrying the code, and the failure message is built from
the stripped stderr text when non-empty (independently of stdout), else the
stripped stdout text when non-empty, else the generic no-output note. -/
theorem run_exit_classification (rc : Int) (so se : String) :
    (rc = 0 → classifyRun rc so se =
      (true, ("Run successful"),
        ("Plugin executed successfully (exit code ") ++ toString rc ++ (")."))) ∧
    (rc ≠ 0 →
      (classifyRun rc so se).1 = false ∧
      (classifyRun rc so se).2.1 = ("Run failed (code ") ++ toString rc ++ (")") ∧
      (pyStrip se ≠ ("") →
        (classifyRun rc so se).2.2 =
          pyStrip (("Plugin execution failed with code ") ++ toString rc ++ (".\n") ++
            (("Error Output:\n") ++ pyStrip se)) ∧
        ∀ so2, (classifyRun rc so2 se).2.2 = (classifyRun rc so se).2.2) ∧
      (pyStrip se = ("") → pyStrip so ≠ ("") →
        (classifyRun rc so se).2.2 =
          pyStrip (("Plugin execution failed with code ") ++ toString rc ++ (".\n") ++
            (("Output (may contain error):\n") ++ pyStrip so))) ∧
      (pyStrip se = ("") → pyStrip so = ("") →
        (classifyRun rc so se).2.2 =
          pyStrip (("Plugin execution failed with code ") ++ toString rc ++ (".\n") ++
            ("No explicit error output captured on stderr/stdout.")))) := by
  constructor
  · intro h0
    simp [classifyRun, h0]
  · intro hne
    refine ⟨?_, ?_, ?_, ?_, ?_⟩
    · simp [classifyRun, hne]
    · simp [classifyRun, hne]
    · intro hse
      constructor
      · simp [classifyRun, hne, hse]
      · intro so2
        simp [classifyRun, hne, hse]
    · intro hse hso
      simp [classifyRun, hne, hse, hso]
    · intro hse hso
      simp [classifyRun, hne, hse, hso]

/-- C7 witness: exit code 2 with captured stderr text. -/
theorem run_exit_classification_witness :
    (classifyRun 2 ("out") ("boom")).1 = false ∧
    (classifyRun 2 ("out") ("boom")).2.1 = ("Run failed (code ") ++ toString (2 : Int) ++ (")") ∧
    (classifyRun 2 ("out") ("boom")).2.2 =
      pyStrip (("Plugin execution failed with code ") ++ toString (2 : Int) ++ (".\n") ++
        (("Error Output:\n") ++ pyStrip ("boom"))) := by
  have h := run_exit_classification 2 ("out") ("boom")
  have h2 := h.2 (by decide)
  exact ⟨h2.1, h2.2.1, (h2.2.2.1 (by decide)).1⟩

/-- C8: when the connector download operation fails, download_plugin
returns failure, demotes the plugin (download-failed status, no path, not
downloaded) for either outcome of the best-effort file removal, and when
the removal succeeds the partial file at the canonical target path is gone
from the filesystem. -/
theorem download_failure_cleanup (dir : String) (p : Plugin) (fs : Fs)
    (removeOk : Bool)
    (hfast : (p.is_downloaded && (p.local_path == some (pathJoin dir p.script_filename))
        && fs (pathJoin dir p.script_filename)) = false) :
    (download_plugin dir p fs false removeOk).success = false ∧
    (download_plugin dir p fs false removeOk).plugin.is_downloaded = false ∧
    (download_plugin dir p fs false removeOk).plugin.local_path = none ∧
    (download_plugin dir p fs false removeOk).plugin.status_message = ("Download failed") ∧
    (download_plugin dir p fs false removeOk).materializeCalled = true ∧
    (removeOk = true →
      (download_plugin dir p fs false removeOk).fs (pathJoin dir p.script_filename) = false) := by
  refine ⟨?_, ?_, ?_, ?_, ?_, ?_⟩
  · simp [download_plugin, hfast]
  · simp [download_plugin, hfast]
  · simp [download_plugin, hfast]
  · simp [download_plugin, hfast]
  · simp [download_plugin, hfast]
  · intro hrem
    subst hrem
    cases hfs : fs (pathJoin dir p.script_filename) with
    | false => simp [download_plugin, hfast, hfs]
    | true =>
      have hAB : (p.is_downloaded && (p.local_path == some (pathJoin dir p.script_filename))) = false := by
        have h2 := hfast
        rw [hfs, Bool.and_true] at h2
        exact h2
      have hprop : ¬ (p.is_downloaded = true ∧ p.local_path = some (pathJoin dir p.script_filename)) := by
        intro hand
        rw [hand.1, hand.2] at hAB
        simp at hAB
      simp [download_plugin, hfs, hprop]

/-- C8 witness: a not-yet-downloaded plugin on an empty filesystem whose
transfer fails, with the removal succeeding. -/
theorem download_failure_cleanup_witness :
    (download_plugin ("plugins")
        { id := ("p1"), name := ("P"), description := ("d"), version := ("1"),
          author := ("a"), script_type := ("py"), download_url := ("u"),
          script_filename := ("a.py"), expected_args := [],
          local_path := none, is_downloaded := false,
          status_message := ("Available") }
        (fun _ => false) false true).success = false ∧
    (download_plugin ("plugins")
        { id := ("p1"), name := ("P"), description := ("d"), version := ("1"),
          author := ("a"), script_type := ("py"), download_url := ("u"),
          script_filename := ("a.py"), expected_args := [],
          local_path := none, is_downloaded := false,
          status_message := ("Available") }
        (fun _ => false) false true).plugin.status_message = ("Download failed") := by
  have h := download_failure_cleanup ("plugins")
      { id := ("p1"), name := ("P"), description := ("d"), version := ("1"),
        author := ("a"), script_type := ("py"), download_url := ("u"),
        script_filename := ("a.py"), expected_args := [],
        local_path := none, is_downloaded := false,
        status_message := ("Available") }
      (fun _ => false) true rfl
  exact ⟨h.1, h.2.2.2.1⟩

/-- C9: while a worker is active, a further attempt to start a download or
run through the window returns no worker (the Busy path) and leaves the
window state untouched, so no second process starts and nothing is written;
from an idle state, the first start succeeds and a second attempt while it
runs is refused without starting another task. -/
theorem second_start_fails_busy (s : UiState)
    (h : s.activeWorkerRunning = true) :
    (start_worker_task s).1 = none ∧
    (start_worker_task s).2 = s ∧
    ∀ s0 : UiState, s0.activeWorkerRunning = false →
      (start_worker_task s0).1 = some () ∧
      (start_worker_task ((start_worker_task s0).2)).1 = none ∧
      (start_worker_task ((start_worker_task s0).2)).2 = (start_worker_task s0).2 ∧
      ((start_worker_task ((start_worker_task s0).2)).2).startedTasks = s0.startedTasks + 1 := by
  refine ⟨by simp [start_worker_task, h], by simp [start_worker_task, h], ?_⟩
  intro s0 h0
  refine ⟨by simp [start_worker_task, h0], ?_, ?_, ?_⟩ <;>
    simp [start_worker_task, h0]

/-- C9 witness: a window with a running worker refuses a second start. -/
theorem second_start_fails_busy_witness :
    (start_worker_task { activeWorkerRunning := true, startedTasks := 3 }).1 = none ∧
    (start_worker_task { activeWorkerRunning := true, startedTasks := 3 }).2 =
      { activeWorkerRunning := true, startedTasks := 3 } := by
  have h := second_start_fails_busy { activeWorkerRunning := true, startedTasks := 3 } rfl
  exact ⟨h.1, h.2.1⟩

/-- C10: when run_plugin is invoked without an output callback, the read
loops are skipped, so both captured streams are empty, and every non-zero
exit yields the generic no-output note regardless of what the child wrote
on either channel. -/
theorem run_without_callback_generic (arrivals : List (Channel × String))
    (rc : Int) (h : rc ≠ 0) :
    capturedStreams false arrivals = ((""), ("")) ∧
    (run_plugin_outcome false arrivals rc).1 = false ∧
    (run_plugin_outcome false arrivals rc).2.2 =
      pyStrip (("Plugin execution failed with code ") ++ toString rc ++ (".\n") ++
        ("No explicit error output captured on stderr/stdout.")) := by
  have hps : pyStrip ("") = ("") := by decide
  refine ⟨rfl, ?_, ?_⟩ <;>
    simp [run_plugin_outcome, capturedStreams, classifyRun, h, hps]

/-- C10 witness: the child wrote a stderr line, but with no callback the
failure payload is still the generic note. -/
theorem run_without_callback_generic_witness :
    capturedStreams false [(Channel.stderr, ("boom\n"))] = ((""), ("")) ∧
    (run_plugin_outcome false [(Channel.stderr, ("boom\n"))] 2).2.2 =
      pyStrip (("Plugin execution failed with code ") ++ toString (2 : Int) ++ (".\n") ++
        ("No explicit error output captured on stderr/stdout.")) := by
  have h := run_without_callback_generic [(Channel.stderr, ("boom\n"))] 2 (by decide)
  exact ⟨h.1, h.2.2⟩

end PyMarket
